import Mathlib

/-!
Verification of the sidebar index table of `doc/mongodb/coll/options/sidebar-items.js`.

The source file is a single call `initSidebarItems({...})` whose argument is a
static table mapping a category name (`"enum"`, `"struct"`, `"type"`) to an
ordered list of `[identifier, summary]` pairs.  We embed that table verbatim and
model the access operations (`lookup`, `allCategories`) and the interchange
serialization that the specification describes, since the consuming renderer is
not part of the repository.
-/

/-- An entry of the sidebar table: one documented identifier with its one-line
summary (the `[identifier, summary]` pair of the JavaScript object literal). -/
structure Entry where
  identifier : String
  summary : String
deriving DecidableEq, Repr

/-- The static table passed to `initSidebarItems` in
`src/doc/mongodb/coll/options/sidebar-items.js`, transcribed verbatim:
each key of the object literal becomes a pair of the category name and its
ordered list of entries, in source order. -/
def sidebarItems : List (String × List Entry) :=
  [ ("enum",
      [ ⟨"CursorType", "Describes the type of cursor to return on collection queries."⟩
      , ⟨"ReturnDocument", "Describes the type of document to return on write operations."⟩
      , ⟨"WriteModel", "Marker interface for writes that can be batched together."⟩ ])
  , ("struct",
      [ ⟨"AggregateOptions", "Options for aggregation queries."⟩
      , ⟨"CountOptions", "Options for count queries."⟩
      , ⟨"DistinctOptions", "Options for distinct queries."⟩
      , ⟨"FindOneAndDeleteOptions", "Options for `findOneAndDelete` operations."⟩
      , ⟨"FindOneAndUpdateOptions", "Options for `findOneAndUpdate` operations."⟩
      , ⟨"FindOptions", "Options for collection queries."⟩
      , ⟨"IndexModel", "A single index model."⟩
      , ⟨"IndexOptions", "Options for index operations."⟩
      , ⟨"InsertManyOptions", "Options for insertMany operations."⟩
      , ⟨"UpdateOptions", "Options for update operations."⟩ ])
  , ("type",
      [ ⟨"ReplaceOptions", ""⟩ ]) ]

/-- Modelled from the spec: `lookup(category)` returns all entries for a
category in insertion order; an absent category yields `none`
(the `NotFoundError` / empty-result outcome of the spec's documented policy).
The lookup operation itself lives in the external documentation renderer,
which is not part of the repository. -/
def lookup (c : String) : Option (List Entry) :=
  (sidebarItems.find? (fun p => p.1 == c)).map Prod.snd

/-- Modelled from the spec: `allCategories()` returns every category present
in the table.  The operation lives in the external renderer; here it is the
list of keys of the table, in source order. -/
def allCategories : List String :=
  sidebarItems.map Prod.fst

/-- The identifiers of a list of entries, in order. -/
def entryIds (l : List Entry) : List String :=
  l.map Entry.identifier

/-- All entries of the table, across every category, in source order. -/
def allEntries : List Entry :=
  (sidebarItems.map Prod.snd).flatten

/-- Modelled from the spec: the interchange format is a mapping from category
name to an ordered sequence of (identifier, summary) pairs. -/
def serializeTable (t : List (String × List Entry)) :
    List (String × List (String × String)) :=
  t.map (fun p => (p.1, p.2.map (fun e => (e.identifier, e.summary))))

/-- Modelled from the spec: parsing the interchange format back into a table
rebuilds each (identifier, summary) pair as an `Entry`. -/
def parseTable (j : List (String × List (String × String))) :
    List (String × List Entry) :=
  j.map (fun p => (p.1, p.2.map (fun q => ⟨q.1, q.2⟩)))

/-- C1: for every category present in the table, `lookup` succeeds with a
non-empty ordered sequence of entries whose identifiers are pairwise
distinct. -/
theorem lookup_present_nonempty_nodup :
    ∀ c ∈ allCategories,
      (lookup c).isSome = true ∧
      ((lookup c).getD []) ≠ [] ∧
      (entryIds ((lookup c).getD [])).Nodup := by
  decide

/-- Witness for C1 at the concrete category `"enum"`. -/
theorem lookup_present_nonempty_nodup_witness :
    (lookup "enum").isSome = true ∧
    ((lookup "enum").getD []) ≠ [] ∧
    (entryIds ((lookup "enum").getD [])).Nodup :=
  lookup_present_nonempty_nodup "enum" (by decide)

/-- C2: `allCategories` is exactly `["enum", "struct", "type"]`, so a name is
a category of the table precisely when it is one of those three. -/
theorem allCategories_exact :
    allCategories = ["enum", "struct", "type"] ∧
    ∀ c : String, c ∈ allCategories ↔ (c = "enum" ∨ c = "struct" ∨ c = "type") := by
  refine ⟨rfl, fun c => ?_⟩
  simp [allCategories, sidebarItems]

/-- C3: `lookup "enum"` returns entries whose identifiers are exactly
`CursorType`, `ReturnDocument`, `WriteModel`, in that insertion order. -/
theorem lookup_enum_ids :
    (lookup "enum").map entryIds =
      some ["CursorType", "ReturnDocument", "WriteModel"] := by
  rfl

/-- C4: `lookup "struct"` returns exactly 10 entries, the first with
identifier `AggregateOptions` and the last with identifier `UpdateOptions`. -/
theorem lookup_struct_shape :
    (lookup "struct").isSome = true ∧
    ((lookup "struct").getD []).length = 10 ∧
    (entryIds ((lookup "struct").getD [])).head? = some "AggregateOptions" ∧
    (entryIds ((lookup "struct").getD [])).getLast? = some "UpdateOptions" := by
  decide

/-- C5: `lookup "type"` returns exactly one entry, with identifier
`ReplaceOptions` and empty summary. -/
theorem lookup_type_single :
    lookup "type" = some [⟨"ReplaceOptions", ""⟩] := by
  rfl

/-- A name is a member of `allCategories` exactly when it is one of the three
keys of the table. -/
theorem mem_allCategories_iff (c : String) :
    c ∈ allCategories ↔ (c = "enum" ∨ c = "struct" ∨ c = "type") := by
  simp [allCategories, sidebarItems]

/-- C6: lookup of a category fails (returns `none`, the modelled
`NotFoundError` / empty-result outcome) exactly when the category is absent
from the table; `lookup` is a pure function, so the outcome is identical
across repeated calls and no other failure mode exists. -/
theorem lookup_absent_iff_none :
    ∀ c : String, (lookup c = none ↔ c ∉ allCategories) ∧ lookup c = lookup c := by
  intro c
  refine ⟨?_, rfl⟩
  by_cases h1 : c = "enum"
  · subst h1; simp [lookup, sidebarItems, allCategories]
  · by_cases h2 : c = "struct"
    · subst h2; simp [lookup, sidebarItems, allCategories]
    · by_cases h3 : c = "type"
      · subst h3; simp [lookup, sidebarItems, allCategories]
      · constructor
        · intro _ hc
          rcases (mem_allCategories_iff c).mp hc with h | h | h
          · exact h1 h
          · exact h2 h
          · exact h3 h
        · intro _
          simp [lookup, sidebarItems, List.find?,
            beq_eq_false_iff_ne.mpr (Ne.symm h1),
            beq_eq_false_iff_ne.mpr (Ne.symm h2),
            beq_eq_false_iff_ne.mpr (Ne.symm h3)]

/-- C7: serializing the table to the interchange format (category name ↦
ordered (identifier, summary) pairs) and parsing it back yields the original
table. -/
theorem serialize_parse_roundtrip :
    parseTable (serializeTable sidebarItems) = sidebarItems := by
  rfl

/-- C8: identifiers are pairwise distinct across the entire table, not only
within a single category: distinct entries anywhere in the table have
different identifiers. -/
theorem identifiers_globally_distinct :
    ∀ e₁ ∈ allEntries, ∀ e₂ ∈ allEntries,
      e₁ ≠ e₂ → e₁.identifier ≠ e₂.identifier := by
  decide

/-- Witness for C8 at two concrete entries of the table. -/
theorem identifiers_globally_distinct_witness :
    Entry.identifier ⟨"CursorType", "Describes the type of cursor to return on collection queries."⟩ ≠
    Entry.identifier ⟨"ReplaceOptions", ""⟩ :=
  identifiers_globally_distinct
    ⟨"CursorType", "Describes the type of cursor to return on collection queries."⟩
    (by decide)
    ⟨"ReplaceOptions", ""⟩
    (by decide)
    (by decide)

/-- C9: within every category the entries appear in strictly ascending
lexicographic order of identifier, so insertion order coincides with sorted
order. -/
theorem categories_sorted :
    ∀ p ∈ sidebarItems,
      List.Pairwise (fun a b : Entry => a.identifier < b.identifier) p.2 := by
  have h : ∀ p ∈ sidebarItems,
      List.Pairwise (fun a b : Entry => a.identifier.data < b.identifier.data) p.2 := by
    decide
  intro p hp
  exact (h p hp).imp (fun hlt => String.lt_iff_toList_lt.mpr hlt)

/-- Witness for C9 at the concrete category list of `"enum"`. -/
theorem categories_sorted_witness :
    List.Pairwise (fun a b : Entry => a.identifier < b.identifier)
      [ ⟨"CursorType", "Describes the type of cursor to return on collection queries."⟩
      , ⟨"ReturnDocument", "Describes the type of document to return on write operations."⟩
      , ⟨"WriteModel", "Marker interface for writes that can be batched together."⟩ ] :=
  categories_sorted
    ("enum",
      [ ⟨"CursorType", "Describes the type of cursor to return on collection queries."⟩
      , ⟨"ReturnDocument", "Describes the type of document to return on write operations."⟩
      , ⟨"WriteModel", "Marker interface for writes that can be batched together."⟩ ])
    (by decide)

/-- C10: every entry of the table other than the `("type", "ReplaceOptions")`
entry has a non-empty summary ending in the character `.`. -/
theorem summaries_end_with_period :
    ∀ p ∈ sidebarItems, ∀ e ∈ p.2,
      (p.1 = "type" ∧ e.identifier = "ReplaceOptions") ∨
      (e.summary.data ≠ [] ∧ e.summary.data.getLast? = some '.') := by
  decide

/-- Witness for C10 at a concrete entry of the `"enum"` category. -/
theorem summaries_end_with_period_witness :
    ("enum" = "type" ∧
      Entry.identifier ⟨"CursorType", "Describes the type of cursor to return on collection queries."⟩ = "ReplaceOptions") ∨
    ((Entry.summary ⟨"CursorType", "Describes the type of cursor to return on collection queries."⟩).data ≠ [] ∧
      (Entry.summary ⟨"CursorType", "Describes the type of cursor to return on collection queries."⟩).data.getLast? = some '.') :=
  summaries_end_with_period
    ("enum",
      [ ⟨"CursorType", "Describes the type of cursor to return on collection queries."⟩
      , ⟨"ReturnDocument", "Describes the type of document to return on write operations."⟩
      , ⟨"WriteModel", "Marker interface for writes that can be batched together."⟩ ])
    (by decide)
    ⟨"CursorType", "Describes the type of cursor to return on collection queries."⟩
    (by decide)
